import Mathlib

/-!
Verification of `scripts/generate_charts.py` (thefuck-rs benchmark chart
generator), shallowly embedded in Lean 4.

The embedding mirrors the three components of the script:

* `parse_results` (source lines 25-88): a line-oriented parser folding a
  state machine over the input lines.  The state is the result record
  under construction plus `current_section` and the pending test-case
  name `current_test` (which in the source is an uninitialized local
  until the first `Test:` line matches; we model a read of it while
  unset as the `unboundLocal` error, mirroring Python's
  `UnboundLocalError`).
* `generate_matplotlib_charts` (lines 91-275): modeled as a pure record
  of which chart files are written and which ratio annotations / radar
  axes are produced.  Purely visual details (colors, bar geometry, text
  formatting of annotations) are not modeled; annotations are modeled
  by the ratio value they display.
* `generate_text_charts` (lines 278-338): modeled as a record of the
  glyph-bar lengths and the summary ratios written to the text file.

Numeric values: Python parses tokens with `float(...)` and computes with
IEEE doubles.  We model numbers as exact rationals (`ℚ`); `parseFloat`
models the finite decimal / exponent forms of Python float literals
(sign, digits, decimal point, exponent).  Python specials (`inf`,
`nan`, underscores in literals, unicode digits) are outside the model.
Python string predicates (`str.strip`, `\w` in the `Test:` regex) are
modeled over their ASCII behaviour.

Python `dict`s preserve insertion order and `d[k] = v` updates in place;
they are modeled as ordered association lists with exactly those
semantics (`dictSet`, `corrSet`).
-/

/-! ## Python string primitives (structural, kernel-computable) -/

/-- Whitespace stripped by Python `str.strip()` / split by `str.split()`
(ASCII subset: space, tab, linefeed, return, vertical tab, formfeed). -/
def isSpace (c : Char) : Bool :=
  c == ' ' || c == '\t' || c == '\n' || c == '\r' || c == '\x0b' || c == '\x0c'

/-- Python `str.strip()` on a character list. -/
def pytrimL (s : List Char) : List Char :=
  ((s.dropWhile isSpace).reverse.dropWhile isSpace).reverse

/-- Python `str.strip()`. -/
def pytrim (s : String) : String := String.mk (pytrimL s.data)

/-- Python `str.startswith(p)`. -/
def pyStartsWith (s p : String) : Bool := p.data.isPrefixOf s.data

/-- Split at the leftmost occurrence of `sep` (nonempty in all uses):
`some (before, after)` when `sep` occurs in `s`, else `none`.
This is the engine behind Python `sep in s` and `s.split(sep)`. -/
def findSplit (sep : List Char) : List Char → Option (List Char × List Char)
  | [] => none
  | c :: rest =>
    if sep.isPrefixOf (c :: rest) then some ([], (c :: rest).drop sep.length)
    else
      match findSplit sep rest with
      | some (pre, post) => some (c :: pre, post)
      | none => none

/-- Python `sub in s` (for nonempty `sub`). -/
def containsSub (s sub : String) : Bool := (findSplit sub.data s.data).isSome

/-- First whitespace-delimited token, i.e. Python `s.split()[0]` as an
`Option` (`none` models the `IndexError` on an all-whitespace string). -/
def firstTokenL (s : List Char) : Option (List Char) :=
  let t := (s.dropWhile isSpace).takeWhile (fun c => !(isSpace c))
  if t.isEmpty then none else some t

/-- Python `s.split(sub)[1].strip().split()[0]`: the segment of `s`
between the first and second occurrence of `sub` (or to the end when
`sub` occurs once), reduced to its first whitespace-delimited token.
Used for `line.split(":")[1]...` (source line 58/68, with `sub = ":"`)
and `line.split("Rust:")[1]...` (lines 78/83). `none` models the
`IndexError` cases. -/
def tokenAfterSub (s sub : String) : Option String :=
  match findSplit sub.data s.data with
  | none => none
  | some (_, post) =>
    let seg :=
      match findSplit sub.data post with
      | none => post
      | some (pre2, _) => pre2
    (firstTokenL seg).map String.mk

/-- Python `line.split(":", 1)[1].strip()` (source lines 43/45): all of
the line after the first colon, stripped.  Callers guarantee a colon is
present (the line starts with `Date:` / `Iterations:`). -/
def afterColonTrimmed (s : String) : String :=
  match findSplit [':'] s.data with
  | none => ""
  | some (_, post) => String.mk (pytrimL post)

/-- ASCII `\w` of the `re` module: letters, digits, underscore. -/
def isWordChar (c : Char) : Bool := c.isAlphanum || c == '_'

/-- Python `re.match(r"Test: (\w+)", line)` (source line 53): the line
must begin with `"Test: "` immediately followed by at least one word
character; the captured group is the maximal word-character run. -/
def extractTestName (line : String) : Option String :=
  if pyStartsWith line "Test: " then
    let w := (line.data.drop 6).takeWhile isWordChar
    if w.isEmpty then none else some (String.mk w)
  else none

/-! ## Python float literals as rationals -/

/-- Decimal digit run to a natural number. -/
def digitsVal (l : List Char) : Nat := l.foldl (fun n c => n * 10 + (c.toNat - 48)) 0

/-- Exponent part of a float literal: optional sign then a nonempty
digit run reaching the end of the token. -/
def parseExpPart (r : List Char) : Option Int :=
  let p : Bool × List Char :=
    match r with
    | '-' :: t => (true, t)
    | '+' :: t => (false, t)
    | t => (false, t)
  if p.2.isEmpty || !(p.2.all Char.isDigit) then none
  else some (if p.1 then -(digitsVal p.2 : Int) else (digitsVal p.2 : Int))

/-- Python `float(s)` on the finite literal forms
`[+-] digits [. digits] [(e|E) [+-] digits]` (at least one digit in the
mantissa), as an exact rational; `none` models `ValueError`. -/
def parseFloat (s : String) : Option ℚ :=
  let p1 : Bool × List Char :=
    match s.data with
    | '-' :: r => (true, r)
    | '+' :: r => (false, r)
    | r => (false, r)
  let ip := p1.2.takeWhile Char.isDigit
  let r1 := p1.2.dropWhile Char.isDigit
  let fp :=
    match r1 with
    | '.' :: r => r.takeWhile Char.isDigit
    | _ => []
  let r2 :=
    match r1 with
    | '.' :: r => r.dropWhile Char.isDigit
    | _ => r1
  if ip.isEmpty && fp.isEmpty then none
  else
    let mant : ℚ := (digitsVal ip : ℚ) + (digitsVal fp : ℚ) / (10 : ℚ) ^ fp.length
    let m : ℚ := if p1.1 then -mant else mant
    match r2 with
    | [] => some m
    | 'e' :: r => (parseExpPart r).map (fun e => m * (10 : ℚ) ^ e)
    | 'E' :: r => (parseExpPart r).map (fun e => m * (10 : ℚ) ^ e)
    | _ => none

/-! ## Data model -/

/-- The three report regions (`current_section` values, source lines 46-51). -/
inductive Sect
  | startup
  | correction
  | memory
deriving DecidableEq

/-- Errors `parse_results` can raise: a missing input file
(`FileNotFoundError` from `open`, line 36), `IndexError` from
`...split()[0]` on a tokenless tail (lines 58/68/78/83), `ValueError`
from `float(...)` (lines 60-86), and `UnboundLocalError` from reading
`current_test` before any `Test:` line set it (lines 64/74/81/86). -/
inductive PErr
  | fileNotFound
  | indexError
  | valueError
  | unboundLocal
deriving DecidableEq

/-- The parsed result record (source lines 27-32).  `corrections = none`
models `"corrections" not in results["correction"]`; the inner maps are
insertion-ordered association lists, as Python dicts are. -/
structure Report where
  startup : List (String × ℚ) := []
  corrections : Option (List (String × List (String × ℚ))) := none
  memory : List (String × ℚ) := []
  date : Option String := none
  iterations : Option String := none
deriving DecidableEq

/-- Parser state: the record under construction, `current_section`
(line 34) and the pending test name `current_test` (set at line 55;
`none` models the variable being still unbound). -/
structure PState where
  results : Report := {}
  current_section : Option Sect := none
  current_test : Option String := none
deriving DecidableEq

/-- Python `d[k] = v` on an insertion-ordered dict: update in place if
the key exists, else append. -/
def dictSet (d : List (String × ℚ)) (k : String) (v : ℚ) : List (String × ℚ) :=
  if d.any (fun p => p.1 = k) then
    d.map (fun p => if p.1 = k then (k, v) else p)
  else d ++ [(k, v)]

/-- Python `d.get(k)` / `k in d`. -/
def dictGet (d : List (String × ℚ)) (k : String) : Option ℚ :=
  match d.find? (fun p => p.1 = k) with
  | some p => some p.2
  | none => none

/-- Python `corrections.setdefault(t, {})[lab] = v` (source lines
64/74/81/86): insert an empty inner dict for `t` if absent, then set
`lab` in it. -/
def corrSet (d : List (String × List (String × ℚ))) (t lab : String) (v : ℚ) :
    List (String × List (String × ℚ)) :=
  if d.any (fun p => p.1 = t) then
    d.map (fun p => if p.1 = t then (p.1, dictSet p.2 lab v) else p)
  else d ++ [(t, [(lab, v)])]

/-- The corrections dict, defaulting to empty when the key was never
created (Python `if "corrections" not in results["correction"]`). -/
def corrList (c : Option (List (String × List (String × ℚ)))) :
    List (String × List (String × ℚ)) :=
  match c with
  | some l => l
  | none => []

/-- Python truthiness of `results["correction"].get("corrections")`
(source lines 145/245/307): present and nonempty. -/
def corrTruthy (c : Option (List (String × List (String × ℚ)))) : Bool :=
  match c with
  | some (_ :: _) => true
  | _ => false

/-! ## The parser state machine (source lines 39-86) -/

/-- Which branch of the `if/elif` chain (lines 42-86) a stripped line
takes.  The label branches carry the extracted value token (or `none`
for the `IndexError` case); whether they fire also depends on
`current_section`, which `applyLine` checks. -/
inductive LineKind
  | date (v : String)
  | iterations (v : String)
  | header (s : Sect)
  | testLine (name : Option String)
  | rustAnchored (tok : Option String)
  | pythonAnchored (tok : Option String)
  | rustInline (tok : Option String)
  | pythonInline (tok : Option String)
  | plain
deriving DecidableEq

/-- The `if/elif` dispatch on a stripped line, in source priority order
(lines 42-57, 67, 77, 82). -/
def classifyLine (line : String) : LineKind :=
  if pyStartsWith line "Date:" then .date (afterColonTrimmed line)
  else if pyStartsWith line "Iterations:" then .iterations (afterColonTrimmed line)
  else if line = "STARTUP TIME" then .header .startup
  else if line = "CORRECTION TIME" then .header .correction
  else if line = "MEMORY USAGE" then .header .memory
  else if pyStartsWith line "Test:" then .testLine (extractTestName line)
  else if pyStartsWith line "Rust:" then .rustAnchored (tokenAfterSub line ":")
  else if pyStartsWith line "Python:" then .pythonAnchored (tokenAfterSub line ":")
  else if containsSub line "Rust:" then .rustInline (tokenAfterSub line "Rust:")
  else if containsSub line "Python:" then .pythonInline (tokenAfterSub line "Python:")
  else .plain

/-- Effect of one classified line on the parser state (source lines
42-86).  Per Python evaluation order in the label branches: the token
extraction happens first (`IndexError`), the `float` conversion next
(`ValueError` — the assignment RHS is evaluated before its target), and
only then is `current_test` read (`UnboundLocalError`).  The anchored
branches store into the current section's mapping; the inline fallback
branches (lines 77-86) store into `corrections` regardless of section.
Label branches are reached only when a section is active (line 56). -/
def applyLine (st : PState) (k : LineKind) : Except PErr PState :=
  match k with
  | .date v => .ok { st with results := { st.results with date := some v } }
  | .iterations v => .ok { st with results := { st.results with iterations := some v } }
  | .header s => .ok { st with current_section := some s }
  | .testLine name =>
    match name with
    | some t => .ok { st with current_test := some t }
    | none => .ok st
  | .rustAnchored tokOpt =>
    match st.current_section with
    | none => .ok st
    | some sec =>
      match tokOpt with
      | none => .error .indexError
      | some tok =>
        match parseFloat tok with
        | none => .error .valueError
        | some v =>
          match sec with
          | .startup =>
            .ok { st with results := { st.results with startup := dictSet st.results.startup "rust" v } }
          | .correction =>
            match st.current_test with
            | none => .error .unboundLocal
            | some t =>
              .ok { st with results :=
                { st.results with corrections := some (corrSet (corrList st.results.corrections) t "rust" v) } }
          | .memory =>
            .ok { st with results := { st.results with memory := dictSet st.results.memory "rust" v } }
  | .pythonAnchored tokOpt =>
    match st.current_section with
    | none => .ok st
    | some sec =>
      match tokOpt with
      | none => .error .indexError
      | some tok =>
        match parseFloat tok with
        | none => .error .valueError
        | some v =>
          match sec with
          | .startup =>
            .ok { st with results := { st.results with startup := dictSet st.results.startup "python" v } }
          | .correction =>
            match st.current_test with
            | none => .error .unboundLocal
            | some t =>
              .ok { st with results :=
                { st.results with corrections := some (corrSet (corrList st.results.corrections) t "python" v) } }
          | .memory =>
            .ok { st with results := { st.results with memory := dictSet st.results.memory "python" v } }
  | .rustInline tokOpt =>
    match st.current_section with
    | none => .ok st
    | some _ =>
      match tokOpt with
      | none => .error .indexError
      | some tok =>
        match parseFloat tok with
        | none => .error .valueError
        | some v =>
          match st.current_test with
          | none => .error .unboundLocal
          | some t =>
            .ok { st with results :=
              { st.results with corrections := some (corrSet (corrList st.results.corrections) t "rust" v) } }
  | .pythonInline tokOpt =>
    match st.current_section with
    | none => .ok st
    | some _ =>
      match tokOpt with
      | none => .error .indexError
      | some tok =>
        match parseFloat tok with
        | none => .error .valueError
        | some v =>
          match st.current_test with
          | none => .error .unboundLocal
          | some t =>
            .ok { st with results :=
              { st.results with corrections := some (corrSet (corrList st.results.corrections) t "python" v) } }
  | .plain => .ok st

/-- One iteration of the parse loop: `line = line.strip()` then the
dispatch (source lines 39-41). -/
def stepLine (st : PState) (line : String) : Except PErr PState :=
  applyLine st (classifyLine (pytrim line))

/-- The parse loop over the input lines; an exception aborts the loop. -/
def runLines (st : PState) : List String → Except PErr PState
  | [] => .ok st
  | l :: ls =>
    match stepLine st l with
    | .error e => .error e
    | .ok st2 => runLines st2 ls

/-- `parse_results` (source lines 25-88).  The input is the file's line
list, or `none` for a missing file (the `open` on line 36 raising
`FileNotFoundError`). -/
def parse_results (input : Option (List String)) : Except PErr Report :=
  match input with
  | none => .error .fileNotFound
  | some ls =>
    match runLines {} ls with
    | .error e => .error e
    | .ok st => .ok st.results

/-! ## Graphical renderer `generate_matplotlib_charts` (source lines 91-275) -/

/-- Errors the renderers can raise: `ZeroDivisionError` from an
unguarded float division by zero. -/
inductive RErr
  | zeroDivision
deriving DecidableEq

/-- Radar-chart axis labels (source lines 242, 248, 252); the display
strings `'Startup'`, `f'Correction\n({test})'` and
`'Memory\n(lower is better)'` are modeled by this injective tagging. -/
inductive RadarCat
  | startup
  | correction (test : String)
  | memory
deriving DecidableEq

/-- The `times` list of the startup chart (source lines 103-115): the
`"rust"` value then the `"python"` value, each present one converted
from microseconds to milliseconds. -/
def startupTimes (r : Report) : List ℚ :=
  ((dictGet r.startup "rust").map (fun v => v / 1000)).toList
    ++ ((dictGet r.startup "python").map (fun v => v / 1000)).toList

/-- The `memory` list of the memory chart (source lines 193-205). -/
def memoryVals (r : Report) : List ℚ :=
  (dictGet r.memory "rust").toList ++ (dictGet r.memory "python").toList

/-- The ratio annotation guard of the startup and memory charts (source
lines 132-133 and 222-223): annotate `vs[1] / vs[0]` only when both
implementations contributed a bar and the first (rust) value is
positive. -/
def speedupAnnot (vs : List ℚ) : Option ℚ :=
  match vs with
  | [a, b] => if a > 0 then some (b / a) else none
  | _ => none

/-- The startup axis of the radar chart (source lines 241-243): when
both startup values are present the ratio `python / rust` is computed
with no zero guard, so a zero rust value raises `ZeroDivisionError`. -/
def radarStartAxes (r : Report) : Except RErr (List (RadarCat × ℚ)) :=
  match dictGet r.startup "rust", dictGet r.startup "python" with
  | some a, some b =>
    if a = 0 then .error .zeroDivision else .ok [(RadarCat.startup, b / a)]
  | _, _ => .ok []

/-- The per-test axes of the radar chart (source lines 245-249), guarded
by presence of both values and a positive rust value. -/
def radarCorrAxes (r : Report) : List (RadarCat × ℚ) :=
  (corrList r.corrections).filterMap (fun p =>
    match dictGet p.2 "rust", dictGet p.2 "python" with
    | some a, some b => if a > 0 then some (RadarCat.correction p.1, b / a) else none
    | _, _ => none)

/-- The memory axis of the radar chart (source lines 251-253), guarded
by presence of both values and a positive rust value. -/
def radarMemAxes (r : Report) : List (RadarCat × ℚ) :=
  match dictGet r.memory "rust", dictGet r.memory "python" with
  | some a, some b => if a > 0 then [(RadarCat.memory, b / a)] else []
  | _, _ => []

/-- Observable output of `generate_matplotlib_charts`: which of the four
chart files are written and the ratio annotations / radar axes they
carry.  `startup_saved` records that `startup_time.png` is saved by
line 141, which sits outside the `if results["startup"]:` block and so
runs unconditionally; the other three saves (lines 186, 231, 272) are
inside their data guards. -/
structure MplOut where
  startup_saved : Bool
  startup_annot : Option ℚ
  correction_saved : Bool
  memory_saved : Bool
  memory_annot : Option ℚ
  radar_saved : Bool
  radar_axes : List (RadarCat × ℚ)
deriving DecidableEq

/-- `generate_matplotlib_charts` (source lines 91-275).  A
`ZeroDivisionError` (possible only in the radar startup axis, line 243)
aborts the run; charts written before the crash are not modeled in the
error case. -/
def generate_matplotlib_charts (r : Report) : Except RErr MplOut :=
  match radarStartAxes r with
  | .error e => .error e
  | .ok sAxes =>
    let axes := sAxes ++ radarCorrAxes r ++ radarMemAxes r
    .ok { startup_saved := true,
          startup_annot := speedupAnnot (startupTimes r),
          correction_saved := corrTruthy r.corrections,
          memory_saved := !r.memory.isEmpty,
          memory_annot := if r.memory.isEmpty then none else speedupAnnot (memoryVals r),
          radar_saved := !axes.isEmpty,
          radar_axes := axes }

/-! ## Text renderer `generate_text_charts` (source lines 278-338) -/

/-- Python `max(values)` over a nonempty list (first element, folded
with binary max); the `[]` case is never reached (callers guard with
nonemptiness, and inner correction dicts get `1` instead). -/
def listMax : List ℚ → ℚ
  | [] => 0
  | x :: xs => xs.foldl max x

/-- Python `int(q)`: truncation toward zero. -/
def pyIntTrunc (q : ℚ) : ℤ := Int.tdiv q.num (q.den : ℤ)

/-- The text renderer's glyph-bar length (source lines 294, 312, 328):
`int(time / max_time * scale) if max_time > 0 else 0`, with
`scale = 30` for startup/memory and `25` for correction blocks. -/
def bar_len (time maxv scale : ℚ) : ℤ :=
  if maxv > 0 then pyIntTrunc (time / maxv * scale) else 0

/-- One startup/memory block of the text renderer (source lines 291-300
and 325-334): per-entry glyph bars scaled against the section maximum,
then the summary ratio `python / rust` computed with no zero guard
whenever both labels are present, so a zero rust value raises
`ZeroDivisionError`. -/
def textSection (d : List (String × ℚ)) : Except RErr (List (String × ℤ) × Option ℚ) :=
  if d.isEmpty then .ok ([], none)
  else
    let maxv := listMax (d.map (fun p => p.2))
    let bars := d.map (fun p => (p.1, bar_len p.2 maxv 30))
    match dictGet d "rust", dictGet d "python" with
    | some a, some b => if a = 0 then .error .zeroDivision else .ok (bars, some (b / a))
    | _, _ => .ok (bars, none)

/-- The correction blocks of the text renderer (source lines 307-318):
per-test bars scaled 0-25 against that test's maximum (`1` for an empty
inner dict), and a per-test ratio guarded by a positive rust value. -/
def textCorrBlocks (cs : List (String × List (String × ℚ))) :
    List (String × List (String × ℤ) × Option ℚ) :=
  cs.map (fun p =>
    let maxv := if p.2.isEmpty then 1 else listMax (p.2.map (fun q => q.2))
    let bars := p.2.map (fun q => (q.1, bar_len q.2 maxv 25))
    let sp :=
      match dictGet p.2 "rust", dictGet p.2 "python" with
      | some a, some b => if a > 0 then some (b / a) else none
      | _, _ => none
    (p.1, bars, sp))

/-- Observable output of `generate_text_charts`: the glyph-bar lengths
and summary ratios written into `charts.txt`. -/
structure TextOut where
  startup_bars : List (String × ℤ)
  startup_speedup : Option ℚ
  correction_blocks : List (String × List (String × ℤ) × Option ℚ)
  memory_bars : List (String × ℤ)
  memory_reduction : Option ℚ
deriving DecidableEq

/-- `generate_text_charts` (source lines 278-338), in source order:
startup block, correction blocks, memory block; a `ZeroDivisionError`
aborts the run (the partially written text file is not modeled). -/
def generate_text_charts (r : Report) : Except RErr TextOut :=
  match textSection r.startup with
  | .error e => .error e
  | .ok s =>
    let blocks := textCorrBlocks (corrList r.corrections)
    match textSection r.memory with
    | .error e => .error e
    | .ok m =>
      .ok { startup_bars := s.1, startup_speedup := s.2,
            correction_blocks := blocks,
            memory_bars := m.1, memory_reduction := m.2 }

/-! ## Helper lemmas -/

deriving instance DecidableEq for Except

/-- Unfolding lemma for `parse_results` on a present input file. -/
theorem parse_results_some (ls : List String) :
    parse_results (some ls)
      = match runLines {} ls with
        | Except.error e => Except.error e
        | Except.ok st => Except.ok st.results := rfl

/-- Evaluated string comparison for the fixed label vocabulary. -/
theorem decRustPython : (decide (("rust" : String) = "python")) = false := by decide

/-- Evaluated string comparison for the fixed label vocabulary. -/
theorem decPythonRust : (decide (("python" : String) = "rust")) = false := by decide

/-- Evaluated string comparison for the fixed label vocabulary. -/
theorem decRustRust : (decide (("rust" : String) = "rust")) = true := by decide

/-- Evaluated string comparison for the fixed label vocabulary. -/
theorem decPythonPython : (decide (("python" : String) = "python")) = true := by decide

/-- The parse loop splits over list append: an error in the prefix
aborts, otherwise the suffix continues from the prefix's final state. -/
theorem runLines_append (st : PState) (xs ys : List String) :
    runLines st (xs ++ ys)
      = match runLines st xs with
        | Except.error e => Except.error e
        | Except.ok st2 => runLines st2 ys := by
  induction xs generalizing st with
  | nil => simp [runLines]
  | cons l ls ih =>
    show runLines st (l :: (ls ++ ys)) = _
    cases hst : stepLine st l with
    | error e => simp [runLines, hst]
    | ok st2 => simp [runLines, hst, ih st2]

/-! ## C8: unrecognized lines are ignored -/

/-- C8: a line that matches none of the dispatch rules (no
`Date:`/`Iterations:` prefix, not an exact section header, no `Test:`
marker, and no recognized implementation label — i.e. one classified
`plain`, or a `Test:`-prefixed line whose marker regex fails) leaves
the parse of the surrounding input unchanged: the parsed Report equals
the Report of the same input with that line removed. -/
theorem c8_theorem (xs ys : List String) (line : String)
    (h : classifyLine (pytrim line) = LineKind.plain
      ∨ classifyLine (pytrim line) = LineKind.testLine none) :
    parse_results (some (xs ++ line :: ys)) = parse_results (some (xs ++ ys)) := by
  have hstep : ∀ st : PState, stepLine st line = Except.ok st := by
    intro st
    unfold stepLine
    rcases h with h | h <;> rw [h] <;> rfl
  rw [parse_results_some, parse_results_some, runLines_append, runLines_append]
  cases hr : runLines {} xs with
  | error e => rfl
  | ok st => simp [runLines, hstep st]

/-- C8 witness: a comment line inside the startup section is ignored. -/
theorem c8_witness :
    (classifyLine (pytrim "# comment") = LineKind.plain
      ∨ classifyLine (pytrim "# comment") = LineKind.testLine none)
    ∧ parse_results (some (["STARTUP TIME"] ++ "# comment" :: ["Rust: 5 us"]))
      = parse_results (some (["STARTUP TIME"] ++ ["Rust: 5 us"])) :=
  ⟨Or.inl (by decide),
   c8_theorem ["STARTUP TIME"] ["Rust: 5 us"] "# comment" (Or.inl (by decide))⟩

/-! ## C9: malformed numeric tokens abort the parse -/

/-- C9: when a line matched as a labelled timing line (anchored or
inline, with a section active) carries a first token after the colon
that does not parse as a float, the parser raises the value-conversion
error and returns no Report, whatever lines follow; and a missing input
file raises the not-found error. -/
theorem c9_theorem (xs ys : List String) (line tok : String) (st : PState)
    (hxs : runLines {} xs = Except.ok st)
    (hsec : st.current_section.isSome = true)
    (hk : classifyLine (pytrim line) = LineKind.rustAnchored (some tok)
      ∨ classifyLine (pytrim line) = LineKind.pythonAnchored (some tok)
      ∨ classifyLine (pytrim line) = LineKind.rustInline (some tok)
      ∨ classifyLine (pytrim line) = LineKind.pythonInline (some tok))
    (hbad : parseFloat tok = none) :
    parse_results (some (xs ++ line :: ys)) = Except.error PErr.valueError
    ∧ parse_results none = Except.error PErr.fileNotFound := by
  constructor
  · obtain ⟨sec, hsec2⟩ := Option.isSome_iff_exists.mp hsec
    have hstep : stepLine st line = Except.error PErr.valueError := by
      unfold stepLine
      rcases hk with h | h | h | h <;> rw [h] <;> simp [applyLine, hsec2, hbad]
    rw [parse_results_some, runLines_append, hxs]
    simp [runLines, hstep]
  · rfl

/-- C9 witness: `Rust: abc us` inside the startup section aborts with
the value-conversion error. -/
theorem c9_witness :
    runLines {} ["STARTUP TIME"]
      = Except.ok { results := {}, current_section := some Sect.startup, current_test := none }
    ∧ (({ results := {}, current_section := some Sect.startup, current_test := none } : PState).current_section.isSome = true)
    ∧ classifyLine (pytrim "Rust: abc us") = LineKind.rustAnchored (some "abc")
    ∧ parseFloat "abc" = none
    ∧ parse_results (some (["STARTUP TIME"] ++ "Rust: abc us" :: []))
        = Except.error PErr.valueError
    ∧ parse_results none = Except.error PErr.fileNotFound :=
  ⟨by decide, rfl, by decide, by decide,
   ( c9_theorem ["STARTUP TIME"] [] "Rust: abc us" "abc"
      { results := {}, current_section := some Sect.startup, current_test := none }
      (by decide) rfl (Or.inl (by decide)) (by decide)).1,
   ( c9_theorem ["STARTUP TIME"] [] "Rust: abc us" "abc"
      { results := {}, current_section := some Sect.startup, current_test := none }
      (by decide) rfl (Or.inl (by decide)) (by decide)).2⟩

/-! ## C10: timing lines before any `Test:` marker -/

/-- C10: a line that would be recorded under a test-case name (an
anchored label line while the correction section is active, or an
inline fallback match in any active section) with a parseable numeric
token, reached while `current_test` was never set, makes
`parse_results` raise the uninitialized-variable error rather than
ignoring the line or recording it under a default name. -/
theorem c10_theorem (xs ys : List String) (line tok : String) (st : PState) (v : ℚ)
    (hxs : runLines {} xs = Except.ok st)
    (htest : st.current_test = none)
    (hk : (st.current_section = some Sect.correction
        ∧ (classifyLine (pytrim line) = LineKind.rustAnchored (some tok)
           ∨ classifyLine (pytrim line) = LineKind.pythonAnchored (some tok)))
      ∨ (st.current_section.isSome = true
        ∧ (classifyLine (pytrim line) = LineKind.rustInline (some tok)
           ∨ classifyLine (pytrim line) = LineKind.pythonInline (some tok))))
    (hval : parseFloat tok = some v) :
    parse_results (some (xs ++ line :: ys)) = Except.error PErr.unboundLocal := by
  have hstep : stepLine st line = Except.error PErr.unboundLocal := by
    unfold stepLine
    rcases hk with ⟨hsec, h | h⟩ | ⟨hsec, h | h⟩ <;> rw [h]
    · simp [applyLine, hsec, hval, htest]
    · simp [applyLine, hsec, hval, htest]
    · obtain ⟨sec, hsec2⟩ := Option.isSome_iff_exists.mp hsec
      simp [applyLine, hsec2, hval, htest]
    · obtain ⟨sec, hsec2⟩ := Option.isSome_iff_exists.mp hsec
      simp [applyLine, hsec2, hval, htest]
  rw [parse_results_some, runLines_append, hxs]
  simp [runLines, hstep]

/-- C10 witness: `Rust: 5 us` in the correction section with no prior
`Test:` line aborts with the uninitialized-variable error. -/
theorem c10_witness :
    runLines {} ["CORRECTION TIME"]
      = Except.ok { results := {}, current_section := some Sect.correction, current_test := none }
    ∧ (({ results := {}, current_section := some Sect.correction, current_test := none } : PState).current_test = none)
    ∧ classifyLine (pytrim "Rust: 5 us") = LineKind.rustAnchored (some "5")
    ∧ parseFloat "5" = some 5
    ∧ parse_results (some (["CORRECTION TIME"] ++ "Rust: 5 us" :: []))
        = Except.error PErr.unboundLocal :=
  ⟨by decide, rfl, by decide, by simp [parseFloat, digitsVal],
   c10_theorem ["CORRECTION TIME"] [] "Rust: 5 us" "5"
     { results := {}, current_section := some Sect.correction, current_test := none } 5
     (by decide) rfl (Or.inl ⟨rfl, Or.inl (by decide)⟩) (by simp [parseFloat, digitsVal])⟩

/-! ## C7: two `Test:` blocks under `CORRECTION TIME` -/

/-- C7: for a report consisting of a `CORRECTION TIME` header and two
`Test:` blocks with distinct test names, each with one `Rust:` line and
one `Python:` line carrying numeric tokens, `correction.corrections`
has exactly the two test names as keys, in order, each mapping to the
two-entry mapping that associates `rust` and `python` with that
block's respective values. -/
theorem c7_theorem (t1 t2 s1 s2 s3 s4 : String)
    (lH lT1 lR1 lP1 lT2 lR2 lP2 : String) (q1 q2 q3 q4 : ℚ)
    (hH : classifyLine (pytrim lH) = LineKind.header Sect.correction)
    (hT1 : classifyLine (pytrim lT1) = LineKind.testLine (some t1))
    (hR1 : classifyLine (pytrim lR1) = LineKind.rustAnchored (some s1))
    (hP1 : classifyLine (pytrim lP1) = LineKind.pythonAnchored (some s2))
    (hT2 : classifyLine (pytrim lT2) = LineKind.testLine (some t2))
    (hR2 : classifyLine (pytrim lR2) = LineKind.rustAnchored (some s3))
    (hP2 : classifyLine (pytrim lP2) = LineKind.pythonAnchored (some s4))
    (hq1 : parseFloat s1 = some q1) (hq2 : parseFloat s2 = some q2)
    (hq3 : parseFloat s3 = some q3) (hq4 : parseFloat s4 = some q4)
    (hne : t1 ≠ t2) :
    parse_results (some [lH, lT1, lR1, lP1, lT2, lR2, lP2])
      = Except.ok
          { startup := [],
            corrections := some [(t1, [("rust", q1), ("python", q2)]),
                                 (t2, [("rust", q3), ("python", q4)])],
            memory := [], date := none, iterations := none } := by
  simp [parse_results_some, runLines, stepLine, hH, hT1, hR1, hP1, hT2, hR2, hP2,
    hq1, hq2, hq3, hq4, applyLine, corrSet, corrList, dictSet, hne, Ne.symm hne,
    decRustPython, decPythonRust, decRustRust, decPythonPython]

/-- C7 witness: two concrete blocks. -/
theorem c7_witness :
    classifyLine (pytrim "CORRECTION TIME") = LineKind.header Sect.correction
    ∧ classifyLine (pytrim "Test: git") = LineKind.testLine (some "git")
    ∧ classifyLine (pytrim "Rust: 1.5 ms") = LineKind.rustAnchored (some "1.5")
    ∧ classifyLine (pytrim "Python: 30 ms") = LineKind.pythonAnchored (some "30")
    ∧ classifyLine (pytrim "Test: ls") = LineKind.testLine (some "ls")
    ∧ classifyLine (pytrim "Rust: 2 ms") = LineKind.rustAnchored (some "2")
    ∧ classifyLine (pytrim "Python: 40 ms") = LineKind.pythonAnchored (some "40")
    ∧ parseFloat "1.5" = some (3 / 2) ∧ parseFloat "30" = some 30
    ∧ parseFloat "2" = some 2 ∧ parseFloat "40" = some 40
    ∧ ("git" : String) ≠ "ls"
    ∧ parse_results (some ["CORRECTION TIME", "Test: git", "Rust: 1.5 ms",
        "Python: 30 ms", "Test: ls", "Rust: 2 ms", "Python: 40 ms"])
      = Except.ok
          { startup := [],
            corrections := some [("git", [("rust", 3 / 2), ("python", 30)]),
                                 ("ls", [("rust", 2), ("python", 40)])],
            memory := [], date := none, iterations := none } :=
  ⟨by decide, by decide, by decide, by decide, by decide, by decide, by decide,
   by simp [parseFloat, digitsVal]; norm_num,
   by simp [parseFloat, digitsVal],
   by simp [parseFloat, digitsVal],
   by simp [parseFloat, digitsVal],
   by decide,
   c7_theorem "git" "ls" "1.5" "30" "2" "40"
     "CORRECTION TIME" "Test: git" "Rust: 1.5 ms" "Python: 30 ms"
     "Test: ls" "Rust: 2 ms" "Python: 40 ms" (3 / 2) 30 2 40
     (by decide) (by decide) (by decide) (by decide) (by decide) (by decide) (by decide)
     (by simp [parseFloat, digitsVal]; norm_num)
     (by simp [parseFloat, digitsVal])
     (by simp [parseFloat, digitsVal])
     (by simp [parseFloat, digitsVal])
     (by decide)⟩

/-! ## C1: label lines in startup / memory sections -/

/-- C1 counterexample: with the startup section active, the line
`total Rust: 5 us` contains the label `Rust:` followed by a colon (the
anywhere-in-line case), yet its value is stored under the pending test
name in `correction.corrections`, not in the startup mapping — the
startup mapping stays empty.  This refutes the claim that such values
are stored in the active section's mapping and never in
`correction.corrections`. -/
theorem c1_counterexample :
    parse_results (some ["STARTUP TIME", "Test: foo", "total Rust: 5 us"])
      = Except.ok
          { startup := [],
            corrections := some [("foo", [("rust", 5)])],
            memory := [], date := none, iterations := none } := by
  have cA : classifyLine (pytrim "STARTUP TIME") = LineKind.header Sect.startup := by decide
  have cB : classifyLine (pytrim "Test: foo") = LineKind.testLine (some "foo") := by decide
  have cC : classifyLine (pytrim "total Rust: 5 us") = LineKind.rustInline (some "5") := by decide
  have f1 : parseFloat "5" = some 5 := by simp [parseFloat, digitsVal]
  simp [parse_results_some, runLines, stepLine, cA, cB, cC, f1, applyLine,
    corrSet, corrList, dictSet]

/-- C1 (amended): while the startup or memory section is active, a
label anchored at line start stores the parsed value directly under
that label in the active section's mapping (leaving
`correction.corrections` untouched); but a label matched anywhere in
the line (the fallback branches) stores the value under the pending
test name in `correction.corrections` regardless of which section is
active. -/
theorem c1_theorem (st : PState) (tok t : String) (v : ℚ)
    (hv : parseFloat tok = some v) :
    (st.current_section = some Sect.startup →
      applyLine st (LineKind.rustAnchored (some tok))
        = Except.ok { st with results := { st.results with startup := dictSet st.results.startup "rust" v } }
      ∧ applyLine st (LineKind.pythonAnchored (some tok))
        = Except.ok { st with results := { st.results with startup := dictSet st.results.startup "python" v } })
    ∧ (st.current_section = some Sect.memory →
      applyLine st (LineKind.rustAnchored (some tok))
        = Except.ok { st with results := { st.results with memory := dictSet st.results.memory "rust" v } }
      ∧ applyLine st (LineKind.pythonAnchored (some tok))
        = Except.ok { st with results := { st.results with memory := dictSet st.results.memory "python" v } })
    ∧ (st.current_section.isSome = true → st.current_test = some t →
      applyLine st (LineKind.rustInline (some tok))
        = Except.ok { st with results := { st.results with corrections := some (corrSet (corrList st.results.corrections) t "rust" v) } }
      ∧ applyLine st (LineKind.pythonInline (some tok))
        = Except.ok { st with results := { st.results with corrections := some (corrSet (corrList st.results.corrections) t "python" v) } }) := by
  refine ⟨fun hsec => ?_, fun hsec => ?_, fun hsec htest => ?_⟩
  · constructor <;> simp [applyLine, hsec, hv]
  · constructor <;> simp [applyLine, hsec, hv]
  · obtain ⟨sec, hsec2⟩ := Option.isSome_iff_exists.mp hsec
    constructor <;> simp [applyLine, hsec2, hv, htest]

/-- C1 witness: instantiation in the startup section with pending test
name `t`. -/
theorem c1_witness :
    parseFloat "7" = some 7
    ∧ (({ results := {}, current_section := some Sect.startup, current_test := some "t" } : PState).current_section = some Sect.startup →
      applyLine { results := {}, current_section := some Sect.startup, current_test := some "t" } (LineKind.rustAnchored (some "7"))
        = Except.ok { results := { startup := dictSet [] "rust" 7 }, current_section := some Sect.startup, current_test := some "t" }
      ∧ applyLine { results := {}, current_section := some Sect.startup, current_test := some "t" } (LineKind.pythonAnchored (some "7"))
        = Except.ok { results := { startup := dictSet [] "python" 7 }, current_section := some Sect.startup, current_test := some "t" })
    ∧ (({ results := {}, current_section := some Sect.startup, current_test := some "t" } : PState).current_section.isSome = true →
      ({ results := {}, current_section := some Sect.startup, current_test := some "t" } : PState).current_test = some "t" →
      applyLine { results := {}, current_section := some Sect.startup, current_test := some "t" } (LineKind.rustInline (some "7"))
        = Except.ok { results := { corrections := some (corrSet (corrList none) "t" "rust" 7) }, current_section := some Sect.startup, current_test := some "t" }) :=
  ⟨by simp [parseFloat, digitsVal],
   fun h => (c1_theorem { results := {}, current_section := some Sect.startup, current_test := some "t" }
     "7" "t" 7 (by simp [parseFloat, digitsVal])).1 h,
   fun h ht => ((c1_theorem { results := {}, current_section := some Sect.startup, current_test := some "t" }
     "7" "t" 7 (by simp [parseFloat, digitsVal])).2.2 h ht).1⟩

/-! ## C5: lifetime of the pending test name -/

/-- C5 counterexample: the pending test name `foo` set under the first
`CORRECTION TIME` section survives the `STARTUP TIME` section-header
line: the later `Python:` line is still recorded under `foo`.  This
refutes the claim that a section-header line ends the pending test
name's role as insertion target. -/
theorem c5_counterexample :
    parse_results (some ["CORRECTION TIME", "Test: foo", "Rust: 1 ms",
        "STARTUP TIME", "CORRECTION TIME", "Python: 2 ms"])
      = Except.ok
          { startup := [],
            corrections := some [("foo", [("rust", 1), ("python", 2)])],
            memory := [], date := none, iterations := none } := by
  have cA : classifyLine (pytrim "CORRECTION TIME") = LineKind.header Sect.correction := by decide
  have cB : classifyLine (pytrim "Test: foo") = LineKind.testLine (some "foo") := by decide
  have cC : classifyLine (pytrim "Rust: 1 ms") = LineKind.rustAnchored (some "1") := by decide
  have cD : classifyLine (pytrim "STARTUP TIME") = LineKind.header Sect.startup := by decide
  have cE : classifyLine (pytrim "Python: 2 ms") = LineKind.pythonAnchored (some "2") := by decide
  have f1 : parseFloat "1" = some 1 := by simp [parseFloat, digitsVal]
  have f2 : parseFloat "2" = some 2 := by simp [parseFloat, digitsVal]
  simp [parse_results_some, runLines, stepLine, cA, cB, cC, cD, cE, f1, f2, applyLine,
    corrSet, corrList, dictSet, decRustPython, decPythonRust, decRustRust, decPythonPython]

/-- C5 (amended): the pending test name set by a `Test:` marker remains
the insertion target until the next `Test:` marker that matches the
name regex; no other line — in particular no section-header line —
changes `current_test`. -/
theorem c5_theorem (st st2 : PState) (k : LineKind)
    (h : applyLine st k = Except.ok st2) :
    st2.current_test = st.current_test
      ∨ ∃ n, k = LineKind.testLine (some n) ∧ st2.current_test = some n := by
  cases k with
  | date v =>
    left
    simp only [applyLine, Except.ok.injEq] at h
    subst h
    rfl
  | iterations v =>
    left
    simp only [applyLine, Except.ok.injEq] at h
    subst h
    rfl
  | header s =>
    left
    simp only [applyLine, Except.ok.injEq] at h
    subst h
    rfl
  | testLine name =>
    cases name with
    | none =>
      left
      simp only [applyLine, Except.ok.injEq] at h
      subst h
      rfl
    | some n =>
      right
      refine ⟨n, rfl, ?_⟩
      simp only [applyLine, Except.ok.injEq] at h
      subst h
      rfl
  | plain =>
    left
    simp only [applyLine, Except.ok.injEq] at h
    subst h
    rfl
  | rustAnchored tokOpt =>
    left
    simp only [applyLine] at h
    repeat' split at h
    all_goals first
      | (simp only [Except.ok.injEq] at h; subst h; rfl)
      | simp_all
  | pythonAnchored tokOpt =>
    left
    simp only [applyLine] at h
    repeat' split at h
    all_goals first
      | (simp only [Except.ok.injEq] at h; subst h; rfl)
      | simp_all
  | rustInline tokOpt =>
    left
    simp only [applyLine] at h
    repeat' split at h
    all_goals first
      | (simp only [Except.ok.injEq] at h; subst h; rfl)
      | simp_all
  | pythonInline tokOpt =>
    left
    simp only [applyLine] at h
    repeat' split at h
    all_goals first
      | (simp only [Except.ok.injEq] at h; subst h; rfl)
      | simp_all

/-- C5 witness: a section-header line leaves the pending test name
unchanged. -/
theorem c5_witness :
    applyLine {} (LineKind.header Sect.startup)
      = Except.ok { results := {}, current_section := some Sect.startup, current_test := none }
    ∧ (({ results := {}, current_section := some Sect.startup, current_test := none } : PState).current_test
        = ({} : PState).current_test
      ∨ ∃ n, LineKind.header Sect.startup = LineKind.testLine (some n)
          ∧ ({ results := {}, current_section := some Sect.startup, current_test := none } : PState).current_test = some n) :=
  ⟨rfl,
   c5_theorem {} { results := {}, current_section := some Sect.startup, current_test := none }
     (LineKind.header Sect.startup) rfl⟩

/-! ## Radar axis shape helpers -/

/-- Axes produced by the radar startup computation are startup axes. -/
theorem radarStartAxes_shape (r : Report) (s : List (RadarCat × ℚ))
    (h : radarStartAxes r = Except.ok s) :
    ∀ p ∈ s, p.1 = RadarCat.startup := by
  intro p hp
  unfold radarStartAxes at h
  repeat' split at h
  all_goals first
    | (simp only [Except.ok.injEq] at h; subst h; simp_all)
    | simp_all

/-- Axes produced by the radar correction computation are correction
axes. -/
theorem radarCorrAxes_shape (r : Report) (p : RadarCat × ℚ)
    (hp : p ∈ radarCorrAxes r) : ∃ t, p.1 = RadarCat.correction t := by
  unfold radarCorrAxes at hp
  rw [List.mem_filterMap] at hp
  obtain ⟨a, ha, hpa⟩ := hp
  repeat' split at hpa
  all_goals first
    | (simp only [Option.some.injEq] at hpa; subst hpa; exact ⟨_, rfl⟩)
    | simp_all

/-! ## C2: division-by-zero guards on ratio computations -/

/-- C2 counterexample: in the text renderer, with
`memory = [rust 0, python 20]` the memory summary ratio at source lines
332-334 divides `python / rust` with no zero guard, so the run aborts
with `ZeroDivisionError` — the division is not skipped.  This refutes
the claim that every ratio computation in both renderers is guarded. -/
theorem c2_counterexample :
    generate_text_charts
        { startup := [], corrections := none, memory := [("rust", 0), ("python", 20)],
          date := none, iterations := none }
      = Except.error RErr.zeroDivision := by
  norm_num [generate_text_charts, textSection, textCorrBlocks, dictGet, List.find?,
    corrList, listMax, bar_len, pyIntTrunc,
    decRustPython, decPythonRust, decRustRust, decPythonPython]

/-- C2 (amended): in the graphical renderer the memory ratio
computations are guarded: whenever the memory rust value is zero or
either implementation's value is absent, the memory annotation is
omitted and no memory radar axis is produced — in particular for
`memory = {rust 0, python 20}` no memory division occurs.  (The radar
startup axis and the text renderer's startup and memory summaries are
not so guarded and raise a division error on a zero rust value.) -/
theorem c2_theorem (r : Report) (out : MplOut)
    (hmem : dictGet r.memory "rust" = some 0 ∨ dictGet r.memory "rust" = none
      ∨ dictGet r.memory "python" = none)
    (h : generate_matplotlib_charts r = Except.ok out) :
    out.memory_annot = none ∧ ∀ q : ℚ, (RadarCat.memory, q) ∉ out.radar_axes := by
  have hsp : speedupAnnot (memoryVals r) = none := by
    rcases hmem with h0 | h0 | h0
    · cases hpy : dictGet r.memory "python" with
      | none => simp [speedupAnnot, memoryVals, h0, hpy]
      | some b => simp [speedupAnnot, memoryVals, h0, hpy]
    · cases hpy : dictGet r.memory "python" with
      | none => simp [speedupAnnot, memoryVals, h0, hpy]
      | some b => simp [speedupAnnot, memoryVals, h0, hpy]
    · cases hru : dictGet r.memory "rust" with
      | none => simp [speedupAnnot, memoryVals, h0, hru]
      | some a => simp [speedupAnnot, memoryVals, h0, hru]
  have hma : radarMemAxes r = [] := by
    rcases hmem with h0 | h0 | h0
    · cases hpy : dictGet r.memory "python" with
      | none => simp [radarMemAxes, h0, hpy]
      | some b => simp [radarMemAxes, h0, hpy]
    · cases hpy : dictGet r.memory "python" with
      | none => simp [radarMemAxes, h0, hpy]
      | some b => simp [radarMemAxes, h0, hpy]
    · cases hru : dictGet r.memory "rust" with
      | none => simp [radarMemAxes, h0, hru]
      | some a => simp [radarMemAxes, h0, hru]
  unfold generate_matplotlib_charts at h
  cases hs : radarStartAxes r with
  | error e => rw [hs] at h; exact absurd h (by simp)
  | ok sAxes =>
    rw [hs] at h
    simp only [Except.ok.injEq] at h
    subst h
    constructor
    · simp [hsp]
    · intro q hq
      simp only [hma, List.append_nil] at hq
      rcases List.mem_append.mp hq with h1 | h2
      · have := radarStartAxes_shape r sAxes hs (RadarCat.memory, q) h1
        simp at this
      · obtain ⟨t, ht⟩ := radarCorrAxes_shape r (RadarCat.memory, q) h2
        simp at ht

/-- C2 witness: the graphical renderer on `memory = [rust 0, python 20]`
omits the memory annotation and produces no memory radar axis. -/
theorem c2_witness :
    (dictGet [("rust", 0), ("python", 20)] "rust" = some 0
      ∨ dictGet [("rust", 0), ("python", 20)] "rust" = none
      ∨ dictGet [("rust", 0), ("python", 20)] "python" = none)
    ∧ generate_matplotlib_charts
        { startup := [], corrections := none, memory := [("rust", 0), ("python", 20)],
          date := none, iterations := none }
      = Except.ok
          { startup_saved := true, startup_annot := none, correction_saved := false,
            memory_saved := true, memory_annot := none, radar_saved := false,
            radar_axes := [] }
    ∧ ({ startup_saved := true, startup_annot := none, correction_saved := false,
         memory_saved := true, memory_annot := none, radar_saved := false,
         radar_axes := [] } : MplOut).memory_annot = none
    ∧ ∀ q : ℚ, (RadarCat.memory, q)
        ∉ ({ startup_saved := true, startup_annot := none, correction_saved := false,
             memory_saved := true, memory_annot := none, radar_saved := false,
             radar_axes := [] } : MplOut).radar_axes :=
  ⟨Or.inl (by simp [dictGet, List.find?, decRustRust]),
   by
    norm_num [generate_matplotlib_charts, radarStartAxes, radarCorrAxes, radarMemAxes,
      dictGet, List.find?, corrList, corrTruthy, startupTimes, memoryVals, speedupAnnot,
      decRustPython, decPythonRust, decRustRust, decPythonPython],
   (c2_theorem
      { startup := [], corrections := none, memory := [("rust", 0), ("python", 20)],
        date := none, iterations := none }
      { startup_saved := true, startup_annot := none, correction_saved := false,
        memory_saved := true, memory_annot := none, radar_saved := false,
        radar_axes := [] }
      (Or.inl (by simp [dictGet, List.find?, decRustRust]))
      (by
        norm_num [generate_matplotlib_charts, radarStartAxes, radarCorrAxes, radarMemAxes,
          dictGet, List.find?, corrList, corrTruthy, startupTimes, memoryVals, speedupAnnot,
          decRustPython, decPythonRust, decRustRust, decPythonPython])).1,
   (c2_theorem
      { startup := [], corrections := none, memory := [("rust", 0), ("python", 20)],
        date := none, iterations := none }
      { startup_saved := true, startup_annot := none, correction_saved := false,
        memory_saved := true, memory_annot := none, radar_saved := false,
        radar_axes := [] }
      (Or.inl (by simp [dictGet, List.find?, decRustRust]))
      (by
        norm_num [generate_matplotlib_charts, radarStartAxes, radarCorrAxes, radarMemAxes,
          dictGet, List.find?, corrList, corrTruthy, startupTimes, memoryVals, speedupAnnot,
          decRustPython, decPythonRust, decRustRust, decPythonPython])).2⟩

/-! ## C3: which chart files are written -/

/-- C3 counterexample: on a fully empty Report the startup chart file
is still written (`plt.savefig` on source line 141 sits outside the
`if results["startup"]:` block), refuting the claim that the startup
chart is produced only when its data is present. -/
theorem c3_counterexample :
    generate_matplotlib_charts
        { startup := [], corrections := none, memory := [], date := none, iterations := none }
      = Except.ok
          { startup_saved := true, startup_annot := none, correction_saved := false,
            memory_saved := false, memory_annot := none, radar_saved := false,
            radar_axes := [] } := by
  norm_num [generate_matplotlib_charts, radarStartAxes, radarCorrAxes, radarMemAxes,
    dictGet, List.find?, corrList, corrTruthy, startupTimes, memoryVals, speedupAnnot]

/-- C3 (amended): on every non-crashing run of the graphical renderer,
the correction chart is written exactly when `correction.corrections`
is present and nonempty, the memory chart exactly when the memory
mapping is nonempty, and the radar chart exactly when it has at least
one axis; the startup chart file, however, is always written, even
when the startup mapping is empty. -/
theorem c3_theorem (r : Report) (out : MplOut)
    (h : generate_matplotlib_charts r = Except.ok out) :
    out.startup_saved = true
    ∧ out.correction_saved = corrTruthy r.corrections
    ∧ out.memory_saved = !r.memory.isEmpty
    ∧ out.radar_saved = !out.radar_axes.isEmpty := by
  unfold generate_matplotlib_charts at h
  cases hs : radarStartAxes r with
  | error e => rw [hs] at h; exact absurd h (by simp)
  | ok sAxes =>
    rw [hs] at h
    simp only [Except.ok.injEq] at h
    subst h
    exact ⟨rfl, rfl, rfl, rfl⟩

/-- C3 witness: a memory-only report writes the memory and radar charts
(and the always-written startup chart) but no correction chart. -/
theorem c3_witness :
    generate_matplotlib_charts
        { startup := [], corrections := none, memory := [("rust", 10), ("python", 20)],
          date := none, iterations := none }
      = Except.ok
          { startup_saved := true, startup_annot := none, correction_saved := false,
            memory_saved := true, memory_annot := some 2, radar_saved := true,
            radar_axes := [(RadarCat.memory, 2)] }
    ∧ ({ startup_saved := true, startup_annot := none, correction_saved := false,
         memory_saved := true, memory_annot := some 2, radar_saved := true,
         radar_axes := [(RadarCat.memory, 2)] } : MplOut).startup_saved = true
    ∧ ({ startup_saved := true, startup_annot := none, correction_saved := false,
         memory_saved := true, memory_annot := some 2, radar_saved := true,
         radar_axes := [(RadarCat.memory, 2)] } : MplOut).correction_saved
      = corrTruthy (none : Option (List (String × List (String × ℚ))))
    ∧ ({ startup_saved := true, startup_annot := none, correction_saved := false,
         memory_saved := true, memory_annot := some 2, radar_saved := true,
         radar_axes := [(RadarCat.memory, 2)] } : MplOut).memory_saved
      = !([("rust", 10), ("python", 20)] : List (String × ℚ)).isEmpty
    ∧ ({ startup_saved := true, startup_annot := none, correction_saved := false,
         memory_saved := true, memory_annot := some 2, radar_saved := true,
         radar_axes := [(RadarCat.memory, 2)] } : MplOut).radar_saved
      = !([(RadarCat.memory, 2)] : List (RadarCat × ℚ)).isEmpty :=
  ⟨by
    norm_num [generate_matplotlib_charts, radarStartAxes, radarCorrAxes, radarMemAxes,
      dictGet, List.find?, corrList, corrTruthy, startupTimes, memoryVals, speedupAnnot,
      decRustPython, decPythonRust, decRustRust, decPythonPython],
   (c3_theorem
      { startup := [], corrections := none, memory := [("rust", 10), ("python", 20)],
        date := none, iterations := none }
      { startup_saved := true, startup_annot := none, correction_saved := false,
        memory_saved := true, memory_annot := some 2, radar_saved := true,
        radar_axes := [(RadarCat.memory, 2)] }
      (by
        norm_num [generate_matplotlib_charts, radarStartAxes, radarCorrAxes, radarMemAxes,
          dictGet, List.find?, corrList, corrTruthy, startupTimes, memoryVals, speedupAnnot,
          decRustPython, decPythonRust, decRustRust, decPythonPython])).1,
   (c3_theorem
      { startup := [], corrections := none, memory := [("rust", 10), ("python", 20)],
        date := none, iterations := none }
      { startup_saved := true, startup_annot := none, correction_saved := false,
        memory_saved := true, memory_annot := some 2, radar_saved := true,
        radar_axes := [(RadarCat.memory, 2)] }
      (by
        norm_num [generate_matplotlib_charts, radarStartAxes, radarCorrAxes, radarMemAxes,
          dictGet, List.find?, corrList, corrTruthy, startupTimes, memoryVals, speedupAnnot,
          decRustPython, decPythonRust, decRustRust, decPythonPython])).2.1,
   (c3_theorem
      { startup := [], corrections := none, memory := [("rust", 10), ("python", 20)],
        date := none, iterations := none }
      { startup_saved := true, startup_annot := none, correction_saved := false,
        memory_saved := true, memory_annot := some 2, radar_saved := true,
        radar_axes := [(RadarCat.memory, 2)] }
      (by
        norm_num [generate_matplotlib_charts, radarStartAxes, radarCorrAxes, radarMemAxes,
          dictGet, List.find?, corrList, corrTruthy, startupTimes, memoryVals, speedupAnnot,
          decRustPython, decPythonRust, decRustRust, decPythonPython])).2.2.1,
   (c3_theorem
      { startup := [], corrections := none, memory := [("rust", 10), ("python", 20)],
        date := none, iterations := none }
      { startup_saved := true, startup_annot := none, correction_saved := false,
        memory_saved := true, memory_annot := some 2, radar_saved := true,
        radar_axes := [(RadarCat.memory, 2)] }
      (by
        norm_num [generate_matplotlib_charts, radarStartAxes, radarCorrAxes, radarMemAxes,
          dictGet, List.find?, corrList, corrTruthy, startupTimes, memoryVals, speedupAnnot,
          decRustPython, decPythonRust, decRustRust, decPythonPython])).2.2.2⟩

/-! ## C4: the minimal startup-only report -/

/-- C4 counterexample: for the minimal startup-only report with
`Rust: 1000 us` and `Python: 2000 us`, the graphical renderer also
writes the summary radar chart (with a single startup axis, ratio 2),
so the startup chart is not the only artifact produced — refuting the
claim that the summary radar chart file is absent. -/
theorem c4_counterexample :
    generate_matplotlib_charts
        { startup := [("rust", 1000), ("python", 2000)], corrections := none,
          memory := [], date := none, iterations := none }
      = Except.ok
          { startup_saved := true, startup_annot := some 2, correction_saved := false,
            memory_saved := false, memory_annot := none, radar_saved := true,
            radar_axes := [(RadarCat.startup, 2)] } := by
  norm_num [generate_matplotlib_charts, radarStartAxes, radarCorrAxes, radarMemAxes,
    dictGet, List.find?, corrList, corrTruthy, startupTimes, memoryVals, speedupAnnot,
    decRustPython, decPythonRust, decRustRust, decPythonPython]

/-- C4 (amended): the minimal report `STARTUP TIME / Rust: 1000 us /
Python: 2000 us` parses to a startup-only Report, and the graphical
renderer produces exactly two chart artifacts on it: the startup chart
annotated with the 2.0x speedup, and the summary radar chart with the
single startup axis at ratio 2; the correction and memory chart files
are absent. -/
theorem c4_theorem :
    parse_results (some ["STARTUP TIME", "Rust: 1000 us", "Python: 2000 us"])
      = Except.ok
          { startup := [("rust", 1000), ("python", 2000)], corrections := none,
            memory := [], date := none, iterations := none }
    ∧ generate_matplotlib_charts
        { startup := [("rust", 1000), ("python", 2000)], corrections := none,
          memory := [], date := none, iterations := none }
      = Except.ok
          { startup_saved := true, startup_annot := some 2, correction_saved := false,
            memory_saved := false, memory_annot := none, radar_saved := true,
            radar_axes := [(RadarCat.startup, 2)] } := by
  constructor
  · have cA : classifyLine (pytrim "STARTUP TIME") = LineKind.header Sect.startup := by decide
    have cB : classifyLine (pytrim "Rust: 1000 us") = LineKind.rustAnchored (some "1000") := by decide
    have cC : classifyLine (pytrim "Python: 2000 us") = LineKind.pythonAnchored (some "2000") := by decide
    have f1 : parseFloat "1000" = some 1000 := by simp [parseFloat, digitsVal]
    have f2 : parseFloat "2000" = some 2000 := by simp [parseFloat, digitsVal]
    simp [parse_results_some, runLines, stepLine, cA, cB, cC, f1, f2, applyLine, dictSet,
      decRustPython, decPythonRust, decRustRust, decPythonPython]
  · norm_num [generate_matplotlib_charts, radarStartAxes, radarCorrAxes, radarMemAxes,
      dictGet, List.find?, corrList, corrTruthy, startupTimes, memoryVals, speedupAnnot,
      decRustPython, decPythonRust, decRustRust, decPythonPython]

/-! ## C6: maximal glyph-bar lengths in the text renderer -/

/-- C6 counterexample: a non-empty startup section whose only entry is
`rust 0` — the entry's value equals the section maximum, yet the
computed glyph-bar length is `0`, not the maximum length `30` (the
`max_time > 0` guard yields `0`).  This refutes the claim for sections
whose maximum is not positive. -/
theorem c6_counterexample :
    generate_text_charts
        { startup := [("rust", 0)], corrections := none, memory := [],
          date := none, iterations := none }
      = Except.ok
          { startup_bars := [("rust", 0)], startup_speedup := none,
            correction_blocks := [], memory_bars := [], memory_reduction := none } := by
  norm_num [generate_text_charts, textSection, textCorrBlocks, dictGet, List.find?,
    corrList, listMax, bar_len, pyIntTrunc,
    decRustPython, decPythonRust, decRustRust, decPythonPython]

/-- C6 (amended): in the text renderer's bar-length computation, an
entry whose value equals the section maximum gets the maximal glyph-bar
length — 30 for the startup and memory sections, 25 for a correction
test-case block — provided that maximum is positive. -/
theorem c6_theorem (time maxv : ℚ) (heq : time = maxv) (hpos : 0 < maxv) :
    bar_len time maxv 30 = 30 ∧ bar_len time maxv 25 = 25 := by
  subst heq
  constructor
  · unfold bar_len
    rw [if_pos hpos, div_self (ne_of_gt hpos), one_mul]
    decide
  · unfold bar_len
    rw [if_pos hpos, div_self (ne_of_gt hpos), one_mul]
    decide

/-- C6 witness: at the maximal entry value 5 the bars have lengths 30
and 25. -/
theorem c6_witness :
    ((5 : ℚ) = 5) ∧ ((0 : ℚ) < 5)
    ∧ bar_len 5 5 30 = 30 ∧ bar_len 5 5 25 = 25 :=
  ⟨rfl, by norm_num,
   (c6_theorem 5 5 rfl (by norm_num)).1,
   (c6_theorem 5 5 rfl (by norm_num)).2⟩
